import Mathlib

/-!
# static/js/main.js: progress tracking and quiz submission

A shallow embedding of the engagement code of `static/js/main.js`
(`utils.apiRequest`, `ProgressTracker`, `QuizManager`) and the properties of
it that the design document states.

Conventions of the embedding:

* a method that mutates `this` becomes a function returning the new object;
* what a method does to the outside world (toasts, `fetch` calls, console
  output, DOM writes) is returned as a list of `Effect`s, in program order;
* an `await`ed call is given the outcome of the awaited operation as an
  argument (`FetchOutcome`), so every way the network can behave is an input;
* a JavaScript exception is the `error` side of `Except`.
-/

namespace MainJs

/-! ## JavaScript values -/

/-- A thrown JavaScript error object: its class name and its `message`. -/
structure JSError where
  name : String
  message : String
deriving DecidableEq, Repr

/-- The `TypeError` raised when a property that is not a function is called.
The wording is the one V8 uses; nothing below depends on it. -/
def notAFunction (what : String) : JSError :=
  ⟨"TypeError", what ++ " is not a function"⟩

/-- The `TypeError` raised when a property of `null` or `undefined` is read. -/
def cannotRead (what : String) (prop : String) : JSError :=
  ⟨"TypeError", "Cannot read properties of " ++ what ++ " (reading \x27" ++ prop ++ "\x27)"⟩

/-- A JavaScript number as far as `trackScrollProgress` can produce one: a
finite value, an infinity, or `NaN`. Finite values are exact rationals:
the rounding of IEEE doubles is not modelled, the special values are. -/
inductive JSNum where
  | nan
  | posInf
  | negInf
  | fin (q : ℚ)
deriving DecidableEq

/-- `a / b` for finite `a`, `b`. A zero divisor is the `+0` that a
subtraction of equal numbers yields. -/
def JSNum.div (a b : ℚ) : JSNum :=
  if b = 0 then
    (if a = 0 then .nan else if 0 < a then .posInf else .negInf)
  else .fin (a / b)

/-- `x * k` for a finite positive constant `k`. -/
def JSNum.mulPos (x : JSNum) (k : ℚ) : JSNum :=
  match x with
  | .nan => .nan
  | .posInf => .posInf
  | .negInf => .negInf
  | .fin q => .fin (q * k)

/-- `Math.min(k, x)` for a finite `k`: `NaN` is contagious. -/
def JSNum.mathMin (k : ℚ) (x : JSNum) : JSNum :=
  match x with
  | .nan => .nan
  | .posInf => .fin k
  | .negInf => .negInf
  | .fin q => .fin (min k q)

/-- The number is a real number in the closed range `[lo, hi]`
(so neither `NaN` nor an infinity). -/
def JSNum.inRange (x : JSNum) (lo hi : ℚ) : Prop :=
  match x with
  | .fin q => lo ≤ q ∧ q ≤ hi
  | _ => False

instance (x : JSNum) (lo hi : ℚ) : Decidable (x.inRange lo hi) := by
  cases x <;> unfold JSNum.inRange <;> infer_instance

/-- A parsed JSON document, as `response.json()` resolves to. -/
inductive Json where
  | null
  | bool (b : Bool)
  | num (q : ℚ)
  | str (s : String)
  | arr (items : List Json)
  | obj (fields : List (String × Json))

/-- Property read `v[k]` on a parsed JSON value, for a name `k` that no
prototype defines (the code reads `error`): `none` is `undefined` (a missing
field of an object, any such field of a primitive or an array), an error is
the `TypeError` of reading a property of `null`. -/
def Json.getProp (v : Json) (k : String) : Except JSError (Option Json) :=
  match v with
  | .null => .error (cannotRead "null" k)
  | .obj fields => .ok (fields.lookup k)
  | _ => .ok none

/-- JavaScript truthiness of a JSON value. -/
def Json.truthy : Json → Bool
  | .null => false
  | .bool b => b
  | .num q => decide (q ≠ 0)
  | .str s => decide (s ≠ "")
  | .arr _ => true
  | .obj _ => true

/-! ## The `answers` object of a `QuizManager` -/

/-- A value stored in `answers`: the `value` string of a radio button or
select, or the array of `value` strings of the checked boxes. -/
inductive AnswerVal where
  | str (s : String)
  | arr (items : List String)
deriving DecidableEq, Repr

/-- The own properties of the `answers` object, in insertion order. The
functions below do not require the keys to be distinct, `Answers.WellFormed`
says they are, and every operation preserves it. -/
abbrev Answers := List (String × AnswerVal)

/-- No key occurs twice: the list is the property table of an object. -/
def Answers.WellFormed (a : Answers) : Prop := (a.map Prod.fst).Nodup

/-- `Object.keys(answers)`: the own keys. -/
def Answers.keys (a : Answers) : List String := a.map Prod.fst

/-- The property names a plain object inherits from `Object.prototype`. -/
def objectPrototypeKeys : List String :=
  ["constructor", "hasOwnProperty", "isPrototypeOf", "propertyIsEnumerable",
   "toLocaleString", "toString", "valueOf", "__proto__",
   "__defineGetter__", "__defineSetter__", "__lookupGetter__", "__lookupSetter__"]

/-- What the read `answers[k]` evaluates to. -/
inductive Slot where
  | undefined
  | own (v : AnswerVal)
  | inherited
deriving DecidableEq, Repr

/-- The read `this.answers[k]`: an own property, else a member inherited from
`Object.prototype` (a function, or the prototype object for `__proto__`),
else `undefined`. -/
def Answers.get (a : Answers) (k : String) : Slot :=
  match a.lookup k with
  | some v => .own v
  | none => if k ∈ objectPrototypeKeys then .inherited else .undefined

/-- JavaScript truthiness of a read: `undefined` and the empty string are
falsy; arrays (also empty ones), non-empty strings and inherited members are
truthy. -/
def Slot.truthy : Slot → Bool
  | .undefined => false
  | .own (.str s) => decide (s ≠ "")
  | .own (.arr _) => true
  | .inherited => true

/-- Replace the value of the first entry with key `k`, or append a new entry. -/
def Answers.upsert (a : Answers) (k : String) (v : AnswerVal) : Answers :=
  match a with
  | [] => [(k, v)]
  | (k', v') :: rest =>
    if k' = k then (k, v) :: rest else (k', v') :: Answers.upsert rest k v

/-- The write `this.answers[k] = v`. An existing own property keeps its
place, a new one is appended. Without an own property of that name, the key
`__proto__` names the accessor inherited from `Object.prototype`, whose
setter ignores a string, so no own property appears (`recordAnswer` never
writes an array there: its array write is guarded by a falsy read, and the
inherited prototype object is truthy). -/
def Answers.set (a : Answers) (k : String) (v : AnswerVal) : Answers :=
  if k = "__proto__" ∧ a.lookup k = none then a else a.upsert k v

/-! ## `QuizManager.recordAnswer` -/

/-- The fields of a `change` event that `recordAnswer` reads from `e.target`. -/
structure ChangeEvent where
  name : String
  value : String
  type : String
  checked : Bool
deriving DecidableEq, Repr

/-- `s.replace(pat, '')` on character lists: the first occurrence of `pat`
is removed, a string without one is returned as it is. -/
def removeFirst (pat : List Char) : List Char → List Char
  | [] => []
  | c :: cs =>
    if pat.isPrefixOf (c :: cs) then (c :: cs).drop pat.length
    else c :: removeFirst pat cs

/-- The question id of an input: `e.target.name.replace('question_', '')`. -/
def questionIdOf (name : String) : String :=
  ⟨removeFirst "question_".data name.data⟩

/-- The method `QuizManager.recordAnswer(e)` on the `answers` object. The
error is the `TypeError` of calling `push` or `filter` on a value that has
none (a string, or an inherited member); it is raised before any write. -/
def recordAnswer (answers : Answers) (e : ChangeEvent) : Except JSError Answers :=
  let questionId := questionIdOf e.name
  let value := e.value
  if e.type = "checkbox" then
    let answers1 :=
      if !(answers.get questionId).truthy then answers.set questionId (.arr []) else answers
    match answers1.get questionId with
    | .own (.arr items) =>
      if e.checked then
        .ok (answers1.set questionId (.arr (items ++ [value])))
      else
        .ok (answers1.set questionId (.arr (items.filter (fun v => v ≠ value))))
    | _ =>
      .error (notAFunction
        (if e.checked then "this.answers[questionId].push" else "this.answers[questionId].filter"))
  else
    .ok (answers.set questionId (.str value))

/-- The state of `answers` after the `change` listener ran: a listener that
throws has written nothing. -/
def afterChange (answers : Answers) (e : ChangeEvent) : Answers :=
  match recordAnswer answers e with
  | .ok a => a
  | .error _ => answers

/-- The `change` event of a checkbox of question `q`. -/
def checkboxEvent (q value : String) (checked : Bool) : ChangeEvent :=
  { name := "question_" ++ q, value := value, type := "checkbox", checked := checked }

/-- The `change` event of a radio button of question `q`. -/
def radioEvent (q value : String) : ChangeEvent :=
  { name := "question_" ++ q, value := value, type := "radio", checked := true }

/-! ## Effects and the network -/

/-- The value handed to `JSON.stringify` for a request body. -/
inductive Payload where
  | progress (progress : JSNum) (time_spent : Int)
  | answers (answers : Answers)
deriving DecidableEq

/-- The arguments of one `fetch` call. -/
structure Request where
  url : String
  method : String
  headers : List (String × String)
  body : Payload
deriving DecidableEq

/-- What a method does to the outside world. -/
inductive Effect where
  /-- The call `utils.showToast(message, type)`. -/
  | toast (message : String) (type : String)
  /-- A call of `fetch`. -/
  | fetch (request : Request)
  /-- The call `console.error(label, error)`. -/
  | consoleError (label : String) (error : JSError)
  /-- The call `e.preventDefault()`. -/
  | preventDefault
  /-- The write `progressBar.style.width = progress + '%'`. -/
  | progressBarWidth (progress : JSNum)
  /-- The write `quizContainer.innerHTML = markup`. -/
  | resultsShown (markup : String)

/-- The toasts among the effects, as (message, type). -/
def toasts : List Effect → List (String × String)
  | [] => []
  | .toast m t :: rest => (m, t) :: toasts rest
  | _ :: rest => toasts rest

/-- The `fetch` calls among the effects. -/
def requests : List Effect → List Request
  | [] => []
  | .fetch r :: rest => r :: requests rest
  | _ :: rest => requests rest

/-- How the network answers one `fetch`: the promise rejects (the network
call itself fails), or a response arrives with its `ok` flag (status 2xx)
and with what `response.json()` settles to (a parse failure, or a value). -/
inductive FetchOutcome where
  | rejected (error : JSError)
  | responded (ok : Bool) (json : Except JSError Json)

/-- What the code gets from its surroundings besides the DOM. The two
conversions are those of the language; they are not spelled out here, and
every statement below holds whatever they return.

* `accessToken`: the `access_token` entry of `localStorage` (`none` for
  `null`);
* `toStr`: the `ToString` conversion that `new Error(v)` applies to a `v`
  that is not a string (it throws for an object that cannot be converted);
* `resultsMarkup`: the value of the template literal of `showResults` for a
  given `data`, or the `TypeError` that evaluating it raises (a read from
  `null` or `undefined`, a `results` without `map`, a failed conversion). -/
structure Browser where
  accessToken : Option String
  toStr : Json → Except JSError String
  resultsMarkup : Json → Except JSError String

/-- The constant `API_BASE_URL`. -/
def API_BASE_URL : String := "/api"

/-- The evaluation of `new Error(error.error || '请求失败')`, from what the
read `error.error` gave: the error object built, or the `TypeError` of the
string conversion of a truthy value that is not a string. -/
def newError (toStr : Json → Except JSError String) (field : Option Json) :
    Except JSError JSError :=
  match field with
  | some (.str s) => .ok ⟨"Error", if s ≠ "" then s else "请求失败"⟩
  | some v =>
    if v.truthy then
      match toStr v with
      | .ok message => .ok ⟨"Error", message⟩
      | .error typeError => .error typeError
    else .ok ⟨"Error", "请求失败"⟩
  | none => .ok ⟨"Error", "请求失败"⟩

/-- The arguments `utils.apiRequest(url, options)` passes to `fetch`, for
`options` with a `method` and a `body` (no caller passes `headers`): the
JSON content type, and the bearer token when `localStorage` holds one. -/
def fetchArguments (env : Browser) (url : String) (method : String) (body : Payload) :
    Request :=
  let token := env.accessToken
  let headers := [("Content-Type", "application/json")]
  let headers :=
    match token with
    | some t => if t ≠ "" then headers ++ [("Authorization", "Bearer " ++ t)] else headers
    | none => headers
  { url := API_BASE_URL ++ url, method := method, headers := headers, body := body }

/-- The `try` block of `utils.apiRequest` from the point where `fetch` has
been called: the value it returns, or the error it throws. -/
def tryBlock (env : Browser) (net : FetchOutcome) : Except JSError Json :=
  match net with
  | .rejected error => .error error
  | .responded ok json =>
    if !ok then
      match json with
      | .error parseError => .error parseError
      | .ok error =>
        match error.getProp "error" with
        | .error typeError => .error typeError
        | .ok field =>
          match newError env.toStr field with
          | .error typeError => .error typeError
          | .ok built => .error built
    else json

/-- The function `utils.apiRequest(url, options)`: the effects, and the
settled value of the returned promise. The `catch` block shows the toast and
throws the error again. -/
def apiRequest (env : Browser) (url : String) (method : String) (body : Payload)
    (net : FetchOutcome) : List Effect × Except JSError Json :=
  let call := Effect.fetch (fetchArguments env url method body)
  match tryBlock env net with
  | .ok data => ([call], .ok data)
  | .error error => ([call, .toast error.message "error"], .error error)

/-- The request failed the way the design document lists: the network call
itself failed, or the response has a status outside 2xx. -/
def FetchOutcome.failed : FetchOutcome → Bool
  | .rejected _ => true
  | .responded ok _ => !ok

/-- The outcome of running a method: the object afterwards, the effects, and
how the returned promise settled. -/
structure Run (σ : Type) where
  state : σ
  effects : List Effect
  result : Except JSError Unit

/-! ## `ProgressTracker` -/

/-- The fields of a `ProgressTracker`. -/
structure ProgressTracker where
  moduleId : String
  progress : JSNum
  startTime : Int
deriving DecidableEq

/-- The constructor, run when `Date.now()` is `now`. -/
def ProgressTracker.create (moduleId : String) (now : Int) : ProgressTracker :=
  { moduleId := moduleId, progress := .fin 0, startTime := now }

/-- What `trackScrollProgress` reads from the page. -/
structure ScrollDom where
  /-- Whether `document.querySelector('.module-content')` finds an element. -/
  moduleContent : Bool
  /-- Whether `document.querySelector('.progress-bar')` finds an element. -/
  progressBar : Bool
  /-- The value of `window.pageYOffset`. -/
  pageYOffset : ℚ
  /-- The value of `window.innerHeight`. -/
  innerHeight : ℚ
  /-- The value of `document.documentElement.scrollHeight`. -/
  scrollHeight : ℚ

/-- The method `ProgressTracker.trackScrollProgress()`. -/
def ProgressTracker.trackScrollProgress (self : ProgressTracker) (dom : ScrollDom) :
    ProgressTracker × List Effect :=
  if !dom.moduleContent then (self, [])
  else
    let scrollTop := dom.pageYOffset
    let windowHeight := dom.innerHeight
    let documentHeight := dom.scrollHeight
    let scrollPercentage := (JSNum.div scrollTop (documentHeight - windowHeight)).mulPos 100
    let self1 := { self with progress := JSNum.mathMin 100 scrollPercentage }
    (self1, if dom.progressBar then [.progressBarWidth self1.progress] else [])

/-- The method `ProgressTracker.saveProgress(timeSpent = 0)`; `none` is a
call without the argument. -/
def ProgressTracker.saveProgress (env : Browser) (self : ProgressTracker)
    (timeSpent : Option Int) (net : FetchOutcome) : Run ProgressTracker :=
  let timeSpent := timeSpent.getD 0
  match apiRequest env ("/modules/" ++ self.moduleId ++ "/update-progress") "POST"
      (.progress self.progress timeSpent) net with
  | (effects, .ok _) => ⟨self, effects, .ok ()⟩
  | (effects, .error error) => ⟨self, effects ++ [.consoleError "保存进度失败:" error], .ok ()⟩

/-- The method `ProgressTracker.updateTimeSpent()`, run when `Date.now()` is
`now`. -/
def ProgressTracker.updateTimeSpent (env : Browser) (self : ProgressTracker)
    (now : Int) (net : FetchOutcome) : Run ProgressTracker :=
  let timeSpent := Int.floor (((now - self.startTime : Int) : ℚ) / 60000)
  self.saveProgress env (some timeSpent) net

/-- The `beforeunload` listener that `init` installs: `() => this.saveProgress()`. -/
def ProgressTracker.onBeforeUnload (env : Browser) (self : ProgressTracker)
    (net : FetchOutcome) : Run ProgressTracker :=
  self.saveProgress env none net

/-- The interval callback that `init` installs: `() => this.updateTimeSpent()`. -/
def ProgressTracker.onInterval (env : Browser) (self : ProgressTracker)
    (now : Int) (net : FetchOutcome) : Run ProgressTracker :=
  self.updateTimeSpent env now net

/-! ## `QuizManager` -/

/-- The fields of a `QuizManager`. -/
structure QuizManager where
  quizId : String
  answers : Answers
  startTime : Int
deriving DecidableEq

/-- The constructor, run when `Date.now()` is `now`. -/
def QuizManager.create (quizId : String) (now : Int) : QuizManager :=
  { quizId := quizId, answers := [], startTime := now }

/-- What `handleSubmit` and `showResults` read from the page. -/
structure QuizDom where
  /-- The elements `document.querySelectorAll('.quiz-question')` finds, each
  given by the id of the question it renders. -/
  questions : List String
  /-- Whether `document.getElementById('quiz-container')` finds an element. -/
  quizContainer : Bool

/-- The method `QuizManager.recordAnswer(e)`, as the `change` listener runs it. -/
def QuizManager.recordAnswer (self : QuizManager) (e : ChangeEvent) : QuizManager :=
  { self with answers := afterChange self.answers e }

/-- The method `QuizManager.showResults(data)`: the markup is built from
`data`, then written to the container. The errors are the `TypeError` of
building the markup and the one of writing to a container that is missing. -/
def QuizManager.showResults (env : Browser) (data : Json) (dom : QuizDom) :
    Except JSError (List Effect) :=
  match env.resultsMarkup data with
  | .error typeError => .error typeError
  | .ok resultsHTML =>
    if dom.quizContainer then .ok [.resultsShown resultsHTML]
    else .error ⟨"TypeError", "Cannot set properties of null (setting \x27innerHTML\x27)"⟩

/-- The method `QuizManager.handleSubmit(e)`. -/
def QuizManager.handleSubmit (env : Browser) (self : QuizManager) (dom : QuizDom)
    (net : FetchOutcome) : Run QuizManager :=
  let questions := dom.questions
  if self.answers.keys.length < questions.length then
    ⟨self, [.preventDefault, .toast "请回答所有问题" "warning"], .ok ()⟩
  else
    match apiRequest env ("/quiz/" ++ self.quizId ++ "/submit") "POST"
        (.answers self.answers) net with
    | (effects, .ok response) =>
      match QuizManager.showResults env response dom with
      | .ok shown => ⟨self, .preventDefault :: effects ++ shown, .ok ()⟩
      | .error _ =>
        ⟨self, .preventDefault :: effects ++ [.toast "提交失败，请稍后重试" "error"], .ok ()⟩
    | (effects, .error _) =>
      ⟨self, .preventDefault :: effects ++ [.toast "提交失败，请稍后重试" "error"], .ok ()⟩

/-! ## Sample inputs -/

/-- The `ToString` conversion on the values the samples convert: `null`,
booleans, strings, and integers below `10^21`, which print in plain decimal
(`42` gives `"42"`). Every other value gets the text of a plain object; no
sample converts one. -/
def sampleToString : Json → Except JSError String
  | .null => .ok "null"
  | .bool b => .ok (if b then "true" else "false")
  | .str s => .ok s
  | .num q =>
    if q.den = 1 ∧ |q.num| < 10 ^ 21 then .ok (toString q.num) else .ok "[object Object]"
  | _ => .ok "[object Object]"

/-- A browser without a stored access token. -/
def anonymousBrowser : Browser :=
  { accessToken := none,
    toStr := sampleToString,
    resultsMarkup := fun _ => .ok "<div class=\"quiz-results\"></div>" }

/-- The rejection of `fetch` when the network is down. -/
def networkDown : FetchOutcome := .rejected ⟨"TypeError", "Failed to fetch"⟩

/-- A page of 2000 px in a viewport of 800 px, pulled 60 px beyond its top
(the elastic overscroll of touch browsers reports a negative offset). -/
def overscrolledPage : ScrollDom :=
  { moduleContent := true, progressBar := true, pageYOffset := -60,
    innerHeight := 800, scrollHeight := 2000 }

/-- A page whose document is exactly as high as the viewport (800 px), at
scroll offset 0. -/
def fittingPage : ScrollDom :=
  { moduleContent := true, progressBar := true, pageYOffset := 0,
    innerHeight := 800, scrollHeight := 800 }

/-- The three-question quiz of the design document: `q1 = "b"`, `q2` with
`"x"` and `"y"` checked and `"x"` unchecked again, `q3 = "c"`. -/
def answeredQuiz : QuizManager :=
  (((((QuizManager.create "7" 0).recordAnswer (radioEvent "q1" "b")).recordAnswer
    (checkboxEvent "q2" "x" true)).recordAnswer (checkboxEvent "q2" "y" true)).recordAnswer
    (checkboxEvent "q2" "x" false)).recordAnswer (radioEvent "q3" "c")

/-- The page of the three-question quiz. -/
def threeQuestions : QuizDom := { questions := ["q1", "q2", "q3"], quizContainer := true }

/-- A quiz of two rendered questions where `q1` is answered and the second
key of `answers` comes from an input that belongs to no rendered question. -/
def strayAnswerQuiz : QuizManager :=
  ((QuizManager.create "7" 0).recordAnswer (radioEvent "q1" "a")).recordAnswer
    (radioEvent "extra" "b")

/-- The page of the two-question quiz. -/
def twoQuestions : QuizDom := { questions := ["q1", "q2"], quizContainer := true }

/-! ## Lemmas on the `answers` object -/

theorem lookup_upsert_self (a : Answers) (k : String) (v : AnswerVal) :
    (a.upsert k v).lookup k = some v := by
  induction a with
  | nil => simp [Answers.upsert, List.lookup]
  | cons p rest ih =>
    obtain ⟨k1, v1⟩ := p
    by_cases h : k1 = k
    · simp [Answers.upsert, h, List.lookup]
    · have h2 : (k == k1) = false := by simpa using fun h3 => h h3.symm
      simp [Answers.upsert, h, List.lookup, h2, ih]

theorem lookup_upsert_ne (a : Answers) (k k2 : String) (v : AnswerVal) (hne : k2 ≠ k) :
    (a.upsert k v).lookup k2 = a.lookup k2 := by
  induction a with
  | nil =>
    have h2 : (k2 == k) = false := by simpa using hne
    simp [Answers.upsert, List.lookup, h2]
  | cons p rest ih =>
    obtain ⟨k1, v1⟩ := p
    by_cases h : k1 = k
    · subst h
      have h2 : (k2 == k1) = false := by simpa using hne
      simp [Answers.upsert, List.lookup, h2]
    · by_cases h3 : k2 = k1
      · subst h3
        simp [Answers.upsert, h, List.lookup]
      · have h2 : (k2 == k1) = false := by simpa using h3
        simp [Answers.upsert, h, List.lookup, h2, ih]

theorem upsert_of_lookup (a : Answers) (k : String) (v : AnswerVal)
    (h : a.lookup k = some v) : a.upsert k v = a := by
  induction a with
  | nil => simp [List.lookup] at h
  | cons p rest ih =>
    obtain ⟨k1, v1⟩ := p
    by_cases h1 : k1 = k
    · subst h1
      simp [List.lookup] at h
      simp [Answers.upsert, h]
    · have h2 : (k == k1) = false := by simpa using fun h3 => h1 h3.symm
      simp [List.lookup, h2] at h
      simp [Answers.upsert, h1, ih h]

theorem upsert_upsert (a : Answers) (k : String) (v w : AnswerVal) :
    (a.upsert k v).upsert k w = a.upsert k w := by
  induction a with
  | nil => simp [Answers.upsert]
  | cons p rest ih =>
    obtain ⟨k1, v1⟩ := p
    by_cases h1 : k1 = k
    · simp [Answers.upsert, h1]
    · simp [Answers.upsert, h1, ih]

theorem keys_upsert (a : Answers) (k : String) (v : AnswerVal) :
    (a.upsert k v).keys = if k ∈ a.keys then a.keys else a.keys ++ [k] := by
  induction a with
  | nil => simp [Answers.upsert, Answers.keys]
  | cons p rest ih =>
    obtain ⟨k1, v1⟩ := p
    by_cases h1 : k1 = k
    · simp [Answers.upsert, Answers.keys, h1]
    · have h2 : ¬ k = k1 := fun h3 => h1 h3.symm
      simp only [Answers.keys] at ih
      by_cases h3 : k ∈ List.map Prod.fst rest
      · simp [Answers.upsert, Answers.keys, h1, h2, ih, h3]
      · simp [Answers.upsert, Answers.keys, h1, h2, ih, h3]

/-- An own property never disappears: a key of `answers` is still a key after
any write. -/
theorem keys_subset_set (a : Answers) (k : String) (v : AnswerVal) :
    a.keys ⊆ (a.set k v).keys := by
  unfold Answers.set
  split
  · exact fun _ h => h
  · rw [keys_upsert]
    split
    · exact fun _ h => h
    · exact List.subset_append_left _ _

/-- A write keeps the keys distinct. -/
theorem wellFormed_set (a : Answers) (k : String) (v : AnswerVal) (h : a.WellFormed) :
    (a.set k v).WellFormed := by
  unfold Answers.set
  split
  · exact h
  · have hk := keys_upsert a k v
    unfold Answers.WellFormed
    unfold Answers.keys at hk
    rw [hk]
    split
    · exact h
    · rename_i hnot
      exact List.Nodup.append h (List.nodup_singleton k) (by simpa using hnot)

theorem get_set_ne (a : Answers) (k k2 : String) (v : AnswerVal) (hne : k2 ≠ k) :
    (a.set k v).get k2 = a.get k2 := by
  unfold Answers.set
  split
  · rfl
  · simp [Answers.get, lookup_upsert_ne a k k2 v hne]

theorem lookup_of_get_own (a : Answers) (k : String) (v : AnswerVal)
    (h : a.get k = .own v) : a.lookup k = some v := by
  unfold Answers.get at h
  split at h
  · rename_i w hw
    rw [hw]
    injection h with h
    rw [h]
  · split at h <;> simp at h

theorem set_of_lookup_some (a : Answers) (k : String) (v w : AnswerVal)
    (h : a.lookup k = some v) : a.set k w = a.upsert k w := by
  simp [Answers.set, h]

theorem get_upsert_self (a : Answers) (k : String) (v : AnswerVal) :
    (a.upsert k v).get k = .own v := by
  simp [Answers.get, lookup_upsert_self]

theorem removeFirst_append (pat rest : List Char) (h : pat ≠ []) :
    removeFirst pat (pat ++ rest) = rest := by
  cases pat with
  | nil => exact absurd rfl h
  | cons p ps =>
    have hp : List.isPrefixOf (p :: ps) (p :: (ps ++ rest)) = true := by
      rw [List.isPrefixOf_iff_prefix]
      exact List.prefix_append (p :: ps) rest
    simp only [List.cons_append, removeFirst, hp, if_true]
    simp

/-- The question id of the input named `question_<q>` is `q`. -/
theorem questionIdOf_question (q : String) : questionIdOf ("question_" ++ q) = q := by
  unfold questionIdOf
  have h : ("question_" ++ q).data = "question_".data ++ q.data := String.data_append _ _
  rw [h, removeFirst_append _ _ (by decide)]

/-! ## `recordAnswer` -/

/-- A `change` event writes at most the entry of its own question. -/
theorem afterChange_get_ne (a : Answers) (e : ChangeEvent) (k2 : String)
    (hne : k2 ≠ questionIdOf e.name) : (afterChange a e).get k2 = a.get k2 := by
  unfold afterChange recordAnswer
  simp only
  split
  · rename_i a1 h
    split at h
    · split at h
      · split at h
        · injection h with h
          rw [← h, get_set_ne _ _ _ _ hne]
          split
          · exact get_set_ne _ _ _ _ hne
          · rfl
        · injection h with h
          rw [← h, get_set_ne _ _ _ _ hne]
          split
          · exact get_set_ne _ _ _ _ hne
          · rfl
      · cases h
    · injection h with h
      rw [← h, get_set_ne _ _ _ _ hne]
  · rfl

/-- Checking a box whose question holds the array `items` appends the value. -/
theorem afterChange_check_of_arr (a : Answers) (q v : String) (items : List String)
    (h : a.get q = .own (.arr items)) :
    afterChange a (checkboxEvent q v true) = a.upsert q (.arr (items ++ [v])) := by
  have hl := lookup_of_get_own a q _ h
  simp [afterChange, recordAnswer, checkboxEvent, questionIdOf_question, h, Slot.truthy,
    set_of_lookup_some a q _ _ hl]

/-- Unchecking a box whose question holds the array `items` filters the value out. -/
theorem afterChange_uncheck_of_arr (a : Answers) (q v : String) (items : List String)
    (h : a.get q = .own (.arr items)) :
    afterChange a (checkboxEvent q v false)
      = a.upsert q (.arr (items.filter (fun x => x ≠ v))) := by
  have hl := lookup_of_get_own a q _ h
  simp [afterChange, recordAnswer, checkboxEvent, questionIdOf_question, h, Slot.truthy,
    set_of_lookup_some a q _ _ hl]

/-- Check, then uncheck, from a question that holds the array `items`. -/
theorem check_uncheck_of_arr (a : Answers) (q v : String) (items : List String)
    (h : a.get q = .own (.arr items)) :
    afterChange (afterChange a (checkboxEvent q v true)) (checkboxEvent q v false)
      = a.upsert q (.arr (items.filter (fun x => x ≠ v))) := by
  rw [afterChange_check_of_arr a q v items h,
    afterChange_uncheck_of_arr _ q v (items ++ [v]) (get_upsert_self _ _ _), upsert_upsert]
  simp [List.filter_append]

/-- Checking a box of a question that reads as `undefined` creates the array. -/
theorem afterChange_check_of_undefined (a : Answers) (q v : String)
    (h : a.get q = .undefined) :
    afterChange a (checkboxEvent q v true) = a.upsert q (.arr [v]) := by
  have hq : q ≠ "__proto__" := by
    intro hq
    subst hq
    unfold Answers.get at h
    split at h
    · cases h
    · simp [objectPrototypeKeys] at h
  simp [afterChange, recordAnswer, checkboxEvent, questionIdOf_question, h, Slot.truthy,
    Answers.set, hq, get_upsert_self, lookup_upsert_self, upsert_upsert]

/-- A `change` event keeps the keys of `answers` distinct. -/
theorem wellFormed_afterChange (a : Answers) (e : ChangeEvent) (h : a.WellFormed) :
    (afterChange a e).WellFormed := by
  unfold afterChange recordAnswer
  simp only
  split
  · rename_i a1 h1
    split at h1
    · split at h1
      · split at h1
        · injection h1 with h1
          rw [← h1]
          apply wellFormed_set
          split
          · exact wellFormed_set _ _ _ h
          · exact h
        · injection h1 with h1
          rw [← h1]
          apply wellFormed_set
          split
          · exact wellFormed_set _ _ _ h
          · exact h
      · cases h1
    · injection h1 with h1
      rw [← h1]
      exact wellFormed_set _ _ _ h
  · exact h

/-- When every key of `answers` is the id of a rendered question, the count
that `handleSubmit` compares does imply that every rendered question has a
key. -/
theorem every_question_answered_of_count (a : Answers) (questions : List String)
    (hwf : a.WellFormed) (hsub : a.keys ⊆ questions)
    (hlen : questions.length ≤ a.keys.length) : questions ⊆ a.keys := by
  have hsp : List.Subperm a.keys questions := List.subperm_of_subset hwf hsub
  exact (hsp.perm_of_length_le hlen).symm.subset

/-! ## `utils.apiRequest` and its callers -/

theorem apiRequest_of_ok (env : Browser) (url method : String) (body : Payload)
    (net : FetchOutcome) (data : Json) (h : tryBlock env net = .ok data) :
    apiRequest env url method body net
      = ([.fetch (fetchArguments env url method body)], .ok data) := by
  simp [apiRequest, h]

theorem apiRequest_of_error (env : Browser) (url method : String) (body : Payload)
    (net : FetchOutcome) (error : JSError) (h : tryBlock env net = .error error) :
    apiRequest env url method body net
      = ([.fetch (fetchArguments env url method body), .toast error.message "error"],
          .error error) := by
  simp [apiRequest, h]

/-- A rejected `fetch` and a response outside 2xx both make the `try` block throw. -/
theorem tryBlock_of_failed (env : Browser) (net : FetchOutcome) (h : net.failed = true) :
    ∃ error, tryBlock env net = .error error := by
  cases net with
  | rejected error => exact ⟨error, rfl⟩
  | responded ok json =>
    have hok : ok = false := by simpa [FetchOutcome.failed] using h
    subst hok
    cases json with
    | error parseError => exact ⟨parseError, rfl⟩
    | ok error =>
      cases hg : error.getProp "error" with
      | error typeError => exact ⟨typeError, by simp [tryBlock, hg]⟩
      | ok field =>
        cases hn : newError env.toStr field with
        | error typeError => exact ⟨typeError, by simp [tryBlock, hg, hn]⟩
        | ok built => exact ⟨built, by simp [tryBlock, hg, hn]⟩

theorem requests_append (l1 l2 : List Effect) :
    requests (l1 ++ l2) = requests l1 ++ requests l2 := by
  induction l1 with
  | nil => rfl
  | cons e rest ih => cases e <;> simp [requests, ih]

theorem toasts_append (l1 l2 : List Effect) :
    toasts (l1 ++ l2) = toasts l1 ++ toasts l2 := by
  induction l1 with
  | nil => rfl
  | cons e rest ih => cases e <;> simp [toasts, ih]

theorem requests_of_showResults (env : Browser) (data : Json) (dom : QuizDom)
    (shown : List Effect) (h : QuizManager.showResults env data dom = .ok shown) :
    requests shown = [] ∧ toasts shown = [] := by
  unfold QuizManager.showResults at h
  split at h
  · cases h
  · split at h
    · injection h with h
      subst h
      exact ⟨rfl, rfl⟩
    · cases h

theorem handleSubmit_of_incomplete (env : Browser) (self : QuizManager) (dom : QuizDom)
    (net : FetchOutcome) (h : self.answers.keys.length < dom.questions.length) :
    self.handleSubmit env dom net
      = ⟨self, [.preventDefault, .toast "请回答所有问题" "warning"], .ok ()⟩ := by
  simp [QuizManager.handleSubmit, h]

theorem handleSubmit_of_error (env : Browser) (self : QuizManager) (dom : QuizDom)
    (net : FetchOutcome) (error : JSError)
    (h : dom.questions.length ≤ self.answers.keys.length)
    (he : tryBlock env net = .error error) :
    self.handleSubmit env dom net
      = ⟨self, [.preventDefault,
            .fetch (fetchArguments env ("/quiz/" ++ self.quizId ++ "/submit") "POST"
              (.answers self.answers)),
            .toast error.message "error",
            .toast "提交失败，请稍后重试" "error"], .ok ()⟩ := by
  have h2 : ¬ self.answers.keys.length < dom.questions.length := by omega
  simp [QuizManager.handleSubmit, h2, apiRequest_of_error _ _ _ _ _ _ he]

theorem handleSubmit_requests (env : Browser) (self : QuizManager) (dom : QuizDom)
    (net : FetchOutcome) (h : dom.questions.length ≤ self.answers.keys.length) :
    requests (self.handleSubmit env dom net).effects
      = [fetchArguments env ("/quiz/" ++ self.quizId ++ "/submit") "POST"
          (.answers self.answers)] := by
  have h2 : ¬ self.answers.keys.length < dom.questions.length := by omega
  cases ht : tryBlock env net with
  | error error => simp [handleSubmit_of_error env self dom net error h ht, requests]
  | ok data =>
    cases hs : QuizManager.showResults env data dom with
    | error e2 =>
      simp [QuizManager.handleSubmit, h2, apiRequest_of_ok _ _ _ _ _ _ ht, hs, requests]
    | ok shown =>
      have hr := (requests_of_showResults env data dom shown hs).1
      simp [QuizManager.handleSubmit, h2, apiRequest_of_ok _ _ _ _ _ _ ht, hs, requests,
        requests_append, hr]

/-- The toasts of `handleSubmit` on a complete quiz whose request succeeds:
none when the results are shown, the retry-later toast when showing them
throws. -/
theorem handleSubmit_toasts_of_ok (env : Browser) (self : QuizManager) (dom : QuizDom)
    (net : FetchOutcome) (data : Json)
    (h : dom.questions.length ≤ self.answers.keys.length)
    (ht : tryBlock env net = .ok data) :
    toasts (self.handleSubmit env dom net).effects = []
      ∨ toasts (self.handleSubmit env dom net).effects
        = [("提交失败，请稍后重试", "error")] := by
  have h2 : ¬ self.answers.keys.length < dom.questions.length := by omega
  cases hs : QuizManager.showResults env data dom with
  | error e2 =>
    right
    simp [QuizManager.handleSubmit, h2, apiRequest_of_ok _ _ _ _ _ _ ht, hs, toasts]
  | ok shown =>
    left
    have hr := (requests_of_showResults env data dom shown hs).2
    simp [QuizManager.handleSubmit, h2, apiRequest_of_ok _ _ _ _ _ _ ht, hs, toasts,
      toasts_append, hr]

theorem handleSubmit_state (env : Browser) (self : QuizManager) (dom : QuizDom)
    (net : FetchOutcome) : (self.handleSubmit env dom net).state = self := by
  unfold QuizManager.handleSubmit
  simp only
  split
  · rfl
  · split
    · split <;> rfl
    · rfl

theorem saveProgress_of_error (env : Browser) (self : ProgressTracker)
    (timeSpent : Option Int) (net : FetchOutcome) (error : JSError)
    (he : tryBlock env net = .error error) :
    self.saveProgress env timeSpent net
      = ⟨self, [.fetch (fetchArguments env ("/modules/" ++ self.moduleId ++ "/update-progress")
              "POST" (.progress self.progress (timeSpent.getD 0))),
            .toast error.message "error",
            .consoleError "保存进度失败:" error], .ok ()⟩ := by
  simp [ProgressTracker.saveProgress, apiRequest_of_error _ _ _ _ _ _ he]

theorem saveProgress_requests (env : Browser) (self : ProgressTracker)
    (timeSpent : Option Int) (net : FetchOutcome) :
    requests (self.saveProgress env timeSpent net).effects
      = [fetchArguments env ("/modules/" ++ self.moduleId ++ "/update-progress") "POST"
          (.progress self.progress (timeSpent.getD 0))] := by
  cases ht : tryBlock env net with
  | error error => simp [saveProgress_of_error env self timeSpent net error ht, requests]
  | ok data => simp [ProgressTracker.saveProgress, apiRequest_of_ok _ _ _ _ _ _ ht, requests]

theorem saveProgress_state (env : Browser) (self : ProgressTracker)
    (timeSpent : Option Int) (net : FetchOutcome) :
    (self.saveProgress env timeSpent net).state = self := by
  unfold ProgressTracker.saveProgress
  simp only
  split <;> rfl

/-! ## `ProgressTracker.trackScrollProgress` -/

theorem floor_minutes (d : Int) : Int.floor ((d : ℚ) / 60000) = d / 60000 := by
  have h := Rat.floor_intCast_div_natCast d 60000
  simpa using h

/-- The stored progress is never above 100: it is `NaN`, minus infinity, or a
number that is at most 100. -/
theorem trackScrollProgress_upper (self : ProgressTracker) (dom : ScrollDom)
    (hc : dom.moduleContent = true) :
    (self.trackScrollProgress dom).1.progress = .nan
      ∨ (self.trackScrollProgress dom).1.progress = .negInf
      ∨ ∃ q, (self.trackScrollProgress dom).1.progress = .fin q ∧ q ≤ 100 := by
  simp only [ProgressTracker.trackScrollProgress, hc, Bool.not_true, Bool.false_eq_true,
    if_false]
  unfold JSNum.div
  split
  · split
    · left; rfl
    · split
      · right; right; exact ⟨100, rfl, le_refl _⟩
      · right; left; rfl
  · right; right
    exact ⟨_, rfl, min_le_left _ _⟩

/-- On a page that can scroll (the document is higher than the viewport) and
with a scroll offset that is not negative, the stored progress is a number in
`[0, 100]`. -/
theorem trackScrollProgress_inRange (self : ProgressTracker) (dom : ScrollDom)
    (hc : dom.moduleContent = true) (hs : 0 ≤ dom.pageYOffset)
    (hh : dom.innerHeight < dom.scrollHeight) :
    (self.trackScrollProgress dom).1.progress.inRange 0 100 := by
  have hpos : 0 < dom.scrollHeight - dom.innerHeight := by linarith
  have hne : dom.scrollHeight - dom.innerHeight ≠ 0 := ne_of_gt hpos
  simp only [ProgressTracker.trackScrollProgress, hc, Bool.not_true, Bool.false_eq_true,
    if_false, JSNum.div, hne, JSNum.mulPos, JSNum.mathMin, JSNum.inRange]
  constructor
  · apply le_min
    · norm_num
    · exact mul_nonneg (div_nonneg hs (le_of_lt hpos)) (by norm_num)
  · exact min_le_left _ _

/-- There is no clamp from below: a negative scroll offset gives a negative
progress. -/
theorem trackScrollProgress_negative_on_overscroll :
    ((ProgressTracker.create "m1" 0).trackScrollProgress overscrolledPage).1.progress
      = .fin (-5) := by
  norm_num [ProgressTracker.trackScrollProgress, overscrolledPage, JSNum.div, JSNum.mulPos,
    JSNum.mathMin]

/-! ## The properties of the design document -/

/-- C1 (code defect): the stored progress is not always a number in [0, 100].
On a page whose document is exactly as high as the viewport, at scroll offset
0, `trackScrollProgress` divides 0 by 0 and stores `NaN`, which `Math.min`
lets through. -/
theorem trackScrollProgress_nan_on_fitting_page :
    ((ProgressTracker.create "m1" 0).trackScrollProgress fittingPage).1.progress = .nan
    ∧ ¬ ((ProgressTracker.create "m1" 0).trackScrollProgress fittingPage).1.progress.inRange
        0 100 := by
  have h : ((ProgressTracker.create "m1" 0).trackScrollProgress fittingPage).1.progress
      = .nan := by
    simp [ProgressTracker.trackScrollProgress, fittingPage, JSNum.div, JSNum.mulPos,
      JSNum.mathMin]
  rw [h]
  exact ⟨rfl, fun hr => hr⟩

/-- C2 (as stated, refuted): checking and then unchecking a value does not
always restore the entry of the question. From a question without an entry
the entry ends as the empty array, and from an entry that already holds the
value every copy of the value is removed. -/
theorem recordAnswer_roundtrip_counterexample :
    (((QuizManager.create "7" 0).recordAnswer (checkboxEvent "q2" "x" true)).recordAnswer
        (checkboxEvent "q2" "x" false)).answers.get "q2"
      ≠ (QuizManager.create "7" 0).answers.get "q2"
    ∧ (((QuizManager.mk "7" [("q2", .arr ["x"])] 0).recordAnswer
        (checkboxEvent "q2" "x" true)).recordAnswer
        (checkboxEvent "q2" "x" false)).answers.get "q2"
      ≠ (QuizManager.mk "7" [("q2", .arr ["x"])] 0).answers.get "q2" := by
  constructor <;> decide

/-- C2 (amended): for every manager, question id `q` and value `v`, checking
and then unchecking `v` on a checkbox of `q` (a) returns the manager to
exactly its prior state when the entry of `q` is an array that does not hold
`v`, (b) leaves the empty array when `q` reads as `undefined`, and (c) leaves
the entry of every other question as it was. -/
theorem recordAnswer_check_then_uncheck (self : QuizManager) (q v : String) :
    (∀ items, self.answers.get q = .own (.arr items) → v ∉ items →
      (self.recordAnswer (checkboxEvent q v true)).recordAnswer (checkboxEvent q v false)
        = self)
    ∧ (self.answers.get q = .undefined →
      ((self.recordAnswer (checkboxEvent q v true)).recordAnswer
        (checkboxEvent q v false)).answers.get q = .own (.arr []))
    ∧ (∀ q2, q2 ≠ q →
      ((self.recordAnswer (checkboxEvent q v true)).recordAnswer
        (checkboxEvent q v false)).answers.get q2 = self.answers.get q2) := by
  refine ⟨?_, ?_, ?_⟩
  · intro items h hv
    have hf : items.filter (fun x => x ≠ v) = items := by
      rw [List.filter_eq_self]
      intro x hx
      have : x ≠ v := fun hxv => hv (hxv ▸ hx)
      simpa using this
    simp only [QuizManager.recordAnswer]
    rw [check_uncheck_of_arr self.answers q v items h, hf,
      upsert_of_lookup _ _ _ (lookup_of_get_own _ _ _ h)]
  · intro h
    simp only [QuizManager.recordAnswer]
    rw [afterChange_check_of_undefined self.answers q v h,
      afterChange_uncheck_of_arr _ q v [v] (get_upsert_self _ _ _), get_upsert_self]
    simp
  · intro q2 hne
    simp only [QuizManager.recordAnswer]
    have hq : ∀ c, q2 ≠ questionIdOf (checkboxEvent q v c).name := by
      intro c
      simpa [checkboxEvent, questionIdOf_question] using hne
    rw [afterChange_get_ne _ _ _ (hq false), afterChange_get_ne _ _ _ (hq true)]

/-- C2 (amended), at a concrete input: `q2` holds `["y"]`, and `"x"` is
checked and unchecked. -/
theorem recordAnswer_check_then_uncheck_witness :
    (Answers.get [("q1", .str "b"), ("q2", .arr ["y"])] "q2" = .own (.arr ["y"])
      ∧ "x" ∉ ["y"])
    ∧ ((QuizManager.mk "7" [("q1", .str "b"), ("q2", .arr ["y"])] 0).recordAnswer
        (checkboxEvent "q2" "x" true)).recordAnswer (checkboxEvent "q2" "x" false)
      = QuizManager.mk "7" [("q1", .str "b"), ("q2", .arr ["y"])] 0 :=
  ⟨⟨by decide, by decide⟩,
    (recordAnswer_check_then_uncheck
      (QuizManager.mk "7" [("q1", .str "b"), ("q2", .arr ["y"])] 0) "q2" "x").1
      ["y"] (by decide) (by decide)⟩

/-- C3: with fewer keys in `answers` than rendered questions, `handleSubmit`
calls `fetch` zero times and shows exactly one toast, of type `warning`. -/
theorem handleSubmit_incomplete_blocked (env : Browser) (self : QuizManager) (dom : QuizDom)
    (net : FetchOutcome) (h : self.answers.keys.length < dom.questions.length) :
    requests (self.handleSubmit env dom net).effects = []
    ∧ toasts (self.handleSubmit env dom net).effects = [("请回答所有问题", "warning")] := by
  rw [handleSubmit_of_incomplete env self dom net h]
  exact ⟨rfl, rfl⟩

/-- C3 at a concrete input: two answered questions of three. -/
theorem handleSubmit_incomplete_blocked_witness :
    (QuizManager.mk "7" [("q1", .str "b"), ("q2", .arr ["y"])] 0).answers.keys.length
      < threeQuestions.questions.length
    ∧ requests ((QuizManager.mk "7" [("q1", .str "b"), ("q2", .arr ["y"])] 0).handleSubmit
        anonymousBrowser threeQuestions networkDown).effects = []
    ∧ toasts ((QuizManager.mk "7" [("q1", .str "b"), ("q2", .arr ["y"])] 0).handleSubmit
        anonymousBrowser threeQuestions networkDown).effects = [("请回答所有问题", "warning")] :=
  ⟨by decide, handleSubmit_incomplete_blocked anonymousBrowser _ threeQuestions networkDown
    (by decide)⟩

/-- C4 (code defect): `handleSubmit` compares the number of keys with the
number of rendered questions, so a key that belongs to no rendered question
makes up for an unanswered one. With `q1` and `q2` rendered and the keys `q1`
and `extra`, the rendered question `q2` has no key, yet the request is sent
and no warning is shown, however the network answers. -/
theorem handleSubmit_stray_key_submits (env : Browser) (net : FetchOutcome) :
    "q2" ∈ twoQuestions.questions
    ∧ "q2" ∉ strayAnswerQuiz.answers.keys
    ∧ requests (strayAnswerQuiz.handleSubmit env twoQuestions net).effects
      = [fetchArguments env "/quiz/7/submit" "POST"
          (.answers [("q1", .str "a"), ("extra", .str "b")])]
    ∧ ("请回答所有问题", "warning")
      ∉ toasts (strayAnswerQuiz.handleSubmit env twoQuestions net).effects := by
  have ha : strayAnswerQuiz.answers = [("q1", .str "a"), ("extra", .str "b")] := by decide
  have hid : strayAnswerQuiz.quizId = "7" := rfl
  have hlen : twoQuestions.questions.length ≤ strayAnswerQuiz.answers.keys.length := by
    decide
  refine ⟨by decide, by decide, ?_, ?_⟩
  · rw [handleSubmit_requests env _ _ net hlen, ha, hid]
    rfl
  · cases ht : tryBlock env net with
    | error error =>
      rw [handleSubmit_of_error env _ _ net error hlen ht]
      simp [toasts]
    | ok data =>
      rcases handleSubmit_toasts_of_ok env _ _ net data hlen ht with h | h <;> rw [h] <;> simp

/-- C5: with at least as many keys in `answers` as rendered questions,
`handleSubmit` calls `fetch` exactly once, with method POST, the submit path
of the quiz below the API base, and the current `answers` as body, however
the network answers; and after the five `change` events of the design
document on a three-question quiz the body is
`{answers: {q1: "b", q2: ["y"], q3: "c"}}`. -/
theorem handleSubmit_posts_answers_once (env : Browser) (net : FetchOutcome) :
    (∀ (self : QuizManager) (dom : QuizDom),
      dom.questions.length ≤ self.answers.keys.length →
      (requests (self.handleSubmit env dom net).effects).map
          (fun r => (r.method, r.url, r.body))
        = [("POST", API_BASE_URL ++ ("/quiz/" ++ self.quizId ++ "/submit"),
            .answers self.answers)])
    ∧ (requests (answeredQuiz.handleSubmit env threeQuestions net).effects).map
          (fun r => (r.method, r.url, r.body))
        = [("POST", "/api/quiz/7/submit",
            .answers [("q1", .str "b"), ("q2", .arr ["y"]), ("q3", .str "c")])] := by
  constructor
  · intro self dom h
    rw [handleSubmit_requests env self dom net h]
    simp [fetchArguments, String.append_assoc]
  · have ha : answeredQuiz.answers
        = [("q1", .str "b"), ("q2", .arr ["y"]), ("q3", .str "c")] := by decide
    have hid : answeredQuiz.quizId = "7" := rfl
    rw [handleSubmit_requests env _ _ net (by decide), ha, hid]
    rfl

/-- C5 at a concrete input: the answered three-question quiz, network down. -/
theorem handleSubmit_posts_answers_once_witness :
    threeQuestions.questions.length ≤ answeredQuiz.answers.keys.length
    ∧ (requests (answeredQuiz.handleSubmit anonymousBrowser threeQuestions
          networkDown).effects).map (fun r => (r.method, r.url, r.body))
        = [("POST", API_BASE_URL ++ ("/quiz/" ++ answeredQuiz.quizId ++ "/submit"),
            .answers answeredQuiz.answers)] :=
  ⟨by decide, (handleSubmit_posts_answers_once anonymousBrowser networkDown).1
    answeredQuiz threeQuestions (by decide)⟩

/-- C6 (as stated, refuted): a failed update-progress call does produce a
user-visible notification. With the network down, `saveProgress` shows the
error toast that `utils.apiRequest` emits before it throws. -/
theorem saveProgress_failure_counterexample :
    toasts ((ProgressTracker.create "m1" 0).saveProgress anonymousBrowser none
        networkDown).effects = [("Failed to fetch", "error")]
    ∧ toasts ((ProgressTracker.create "m1" 0).saveProgress anonymousBrowser none
        networkDown).effects ≠ [] := by
  have h : toasts ((ProgressTracker.create "m1" 0).saveProgress anonymousBrowser none
      networkDown).effects = [("Failed to fetch", "error")] := by
    rw [saveProgress_of_error anonymousBrowser _ none networkDown
      ⟨"TypeError", "Failed to fetch"⟩ rfl]
    rfl
  rw [h]
  exact ⟨rfl, by decide⟩

/-- C6 (amended): when the update-progress request fails (the network call
fails, or the response is outside 2xx), `saveProgress` calls `fetch` once (no
retry), the only notification is the one error toast of `utils.apiRequest`
(it adds none of its own), the error is written to the console, the promise
resolves (nothing is thrown to the caller) and the tracker is unchanged; the
same holds for `updateTimeSpent` and for the unload listener, which are calls
of `saveProgress`. -/
theorem saveProgress_failure (env : Browser) (self : ProgressTracker)
    (timeSpent : Option Int) (now : Int) (net : FetchOutcome) (h : net.failed = true) :
    ∃ error : JSError,
      self.saveProgress env timeSpent net
        = ⟨self, [.fetch (fetchArguments env
              ("/modules/" ++ self.moduleId ++ "/update-progress") "POST"
              (.progress self.progress (timeSpent.getD 0))),
            .toast error.message "error",
            .consoleError "保存进度失败:" error], .ok ()⟩
      ∧ toasts (self.saveProgress env timeSpent net).effects = [(error.message, "error")]
      ∧ toasts (self.updateTimeSpent env now net).effects = [(error.message, "error")]
      ∧ toasts (self.onBeforeUnload env net).effects = [(error.message, "error")]
      ∧ (self.updateTimeSpent env now net).result = .ok ()
      ∧ (self.onBeforeUnload env net).result = .ok () := by
  obtain ⟨error, he⟩ := tryBlock_of_failed env net h
  refine ⟨error, saveProgress_of_error env self timeSpent net error he, ?_, ?_, ?_, ?_, ?_⟩
  · rw [saveProgress_of_error env self timeSpent net error he]; rfl
  · unfold ProgressTracker.updateTimeSpent
    rw [saveProgress_of_error env self _ net error he]; rfl
  · unfold ProgressTracker.onBeforeUnload
    rw [saveProgress_of_error env self _ net error he]; rfl
  · unfold ProgressTracker.updateTimeSpent
    rw [saveProgress_of_error env self _ net error he]
  · unfold ProgressTracker.onBeforeUnload
    rw [saveProgress_of_error env self _ net error he]

/-- C6 (amended) at a concrete input: a response with status 500 and body
`{error: "db down"}`. -/
theorem saveProgress_failure_witness :
    (FetchOutcome.responded false (.ok (.obj [("error", .str "db down")]))).failed = true
    ∧ ∃ error : JSError,
      (ProgressTracker.create "m1" 0).saveProgress anonymousBrowser (some 3)
          (.responded false (.ok (.obj [("error", .str "db down")])))
        = ⟨ProgressTracker.create "m1" 0, [.fetch (fetchArguments anonymousBrowser
              ("/modules/" ++ (ProgressTracker.create "m1" 0).moduleId ++ "/update-progress")
              "POST"
              (.progress (ProgressTracker.create "m1" 0).progress ((some 3).getD 0))),
            .toast error.message "error",
            .consoleError "保存进度失败:" error], .ok ()⟩
      ∧ toasts ((ProgressTracker.create "m1" 0).saveProgress anonymousBrowser (some 3)
          (.responded false (.ok (.obj [("error", .str "db down")])))).effects
        = [(error.message, "error")]
      ∧ toasts ((ProgressTracker.create "m1" 0).updateTimeSpent anonymousBrowser 60000
          (.responded false (.ok (.obj [("error", .str "db down")])))).effects
        = [(error.message, "error")]
      ∧ toasts ((ProgressTracker.create "m1" 0).onBeforeUnload anonymousBrowser
          (.responded false (.ok (.obj [("error", .str "db down")])))).effects
        = [(error.message, "error")]
      ∧ ((ProgressTracker.create "m1" 0).updateTimeSpent anonymousBrowser 60000
          (.responded false (.ok (.obj [("error", .str "db down")])))).result = .ok ()
      ∧ ((ProgressTracker.create "m1" 0).onBeforeUnload anonymousBrowser
          (.responded false (.ok (.obj [("error", .str "db down")])))).result = .ok () :=
  ⟨rfl, saveProgress_failure anonymousBrowser (ProgressTracker.create "m1" 0) (some 3) 60000
    (.responded false (.ok (.obj [("error", .str "db down")]))) rfl⟩

/-- C7 (code defect): when the submit request of a complete quiz fails,
`handleSubmit` shows two error toasts, not one: the toast of
`utils.apiRequest` with the message of the failure, then its own
retry-later toast. -/
theorem handleSubmit_failure_two_toasts (env : Browser) (self : QuizManager) (dom : QuizDom)
    (net : FetchOutcome) (hc : dom.questions.length ≤ self.answers.keys.length)
    (h : net.failed = true) :
    ∃ error : JSError,
      toasts (self.handleSubmit env dom net).effects
        = [(error.message, "error"), ("提交失败，请稍后重试", "error")] := by
  obtain ⟨error, he⟩ := tryBlock_of_failed env net h
  refine ⟨error, ?_⟩
  rw [handleSubmit_of_error env self dom net error hc he]
  rfl

/-- C7 at the failing input: the answered three-question quiz, network down. -/
theorem handleSubmit_failure_two_toasts_witness :
    (threeQuestions.questions.length ≤ answeredQuiz.answers.keys.length
      ∧ networkDown.failed = true)
    ∧ ∃ error : JSError,
      toasts (answeredQuiz.handleSubmit anonymousBrowser threeQuestions networkDown).effects
        = [(error.message, "error"), ("提交失败，请稍后重试", "error")] :=
  ⟨⟨by decide, rfl⟩, handleSubmit_failure_two_toasts anonymousBrowser answeredQuiz
    threeQuestions networkDown (by decide) rfl⟩

/-- C8 (as stated, refuted): the fallback text is not used for every `error`
field that is not a non-empty string. For a response with status 500 and body
`{error: 42}` the field is truthy, so the toast and the thrown error carry
its string conversion `"42"`. -/
theorem apiRequest_numeric_error_counterexample :
    apiRequest anonymousBrowser "/quiz/7/submit" "POST" (.answers [])
        (.responded false (.ok (.obj [("error", .num 42)])))
      = ([.fetch (fetchArguments anonymousBrowser "/quiz/7/submit" "POST" (.answers [])),
            .toast "42" "error"], .error ⟨"Error", "42"⟩)
    ∧ "42" ≠ "请求失败" := by
  have hs : sampleToString (.num 42) = .ok "42" := by
    have hd : ((42 : ℚ)).den = 1 := by norm_num
    have hn : ((42 : ℚ)).num = 42 := by norm_num
    simp only [sampleToString, hd, hn]
    simp
    rfl
  have ht : tryBlock anonymousBrowser (.responded false (.ok (.obj [("error", .num 42)])))
      = .error ⟨"Error", "42"⟩ := by
    simp [tryBlock, Json.getProp, List.lookup, newError, Json.truthy, anonymousBrowser, hs]
  exact ⟨apiRequest_of_error _ _ _ _ _ _ ht, by decide⟩

/-- C8 (amended): `utils.apiRequest` calls `fetch` once and then either
returns the parsed body without any toast, or shows exactly one toast of type
`error` with the message of the error it throws. It throws when `fetch`
rejects (that error) and whenever the status is outside 2xx. For a body
`{error: s}` outside 2xx the message of the toast and of the error is `s`
when `s` is a non-empty string; the fallback text when `s` is absent, `null`,
`false`, `0` or the empty string; and the string conversion of `s` when `s`
is any other value (`true`, a number that is not 0, an array, an object), or
the message of the `TypeError` of that conversion when it throws. A 2xx
response with a parsed body is returned without a toast. -/
theorem apiRequest_contract (env : Browser) (url method : String) (body : Payload) :
    (∀ net, (∃ data, apiRequest env url method body net
          = ([.fetch (fetchArguments env url method body)], .ok data))
        ∨ (∃ error : JSError, apiRequest env url method body net
          = ([.fetch (fetchArguments env url method body), .toast error.message "error"],
              .error error)))
    ∧ (∀ error : JSError, apiRequest env url method body (.rejected error)
        = ([.fetch (fetchArguments env url method body), .toast error.message "error"],
            .error error))
    ∧ (∀ json, ∃ error : JSError, apiRequest env url method body (.responded false json)
        = ([.fetch (fetchArguments env url method body), .toast error.message "error"],
            .error error))
    ∧ (∀ fields s, fields.lookup "error" = some (.str s) →
        apiRequest env url method body (.responded false (.ok (.obj fields)))
          = ([.fetch (fetchArguments env url method body),
                .toast (if s ≠ "" then s else "请求失败") "error"],
              .error ⟨"Error", if s ≠ "" then s else "请求失败"⟩))
    ∧ (∀ fields,
        (fields.lookup "error" = none ∨ fields.lookup "error" = some .null
          ∨ fields.lookup "error" = some (.bool false)
          ∨ fields.lookup "error" = some (.num 0)
          ∨ fields.lookup "error" = some (.str "")) →
        apiRequest env url method body (.responded false (.ok (.obj fields)))
          = ([.fetch (fetchArguments env url method body), .toast "请求失败" "error"],
              .error ⟨"Error", "请求失败"⟩))
    ∧ (∀ fields v, fields.lookup "error" = some v →
        (v = .bool true ∨ (∃ q, q ≠ 0 ∧ v = .num q) ∨ (∃ items, v = .arr items)
          ∨ (∃ fs, v = .obj fs)) →
        (∀ message, env.toStr v = .ok message →
          apiRequest env url method body (.responded false (.ok (.obj fields)))
            = ([.fetch (fetchArguments env url method body), .toast message "error"],
                .error ⟨"Error", message⟩))
        ∧ (∀ typeError : JSError, env.toStr v = .error typeError →
          apiRequest env url method body (.responded false (.ok (.obj fields)))
            = ([.fetch (fetchArguments env url method body),
                  .toast typeError.message "error"], .error typeError)))
    ∧ (∀ data, apiRequest env url method body (.responded true (.ok data))
        = ([.fetch (fetchArguments env url method body)], .ok data)) := by
  refine ⟨?_, ?_, ?_, ?_, ?_, ?_, ?_⟩
  · intro net
    cases ht : tryBlock env net with
    | error error => exact Or.inr ⟨error, apiRequest_of_error _ _ _ _ _ _ ht⟩
    | ok data => exact Or.inl ⟨data, apiRequest_of_ok _ _ _ _ _ _ ht⟩
  · intro error
    exact apiRequest_of_error _ _ _ _ _ _ rfl
  · intro json
    obtain ⟨error, he⟩ := tryBlock_of_failed env (.responded false json) rfl
    exact ⟨error, apiRequest_of_error _ _ _ _ _ _ he⟩
  · intro fields s h
    have ht : tryBlock env (.responded false (.ok (.obj fields)))
        = .error ⟨"Error", if s ≠ "" then s else "请求失败"⟩ := by
      simp [tryBlock, Json.getProp, h, newError]
    rw [apiRequest_of_error _ _ _ _ _ _ ht]
  · intro fields h
    have ht : tryBlock env (.responded false (.ok (.obj fields)))
        = .error ⟨"Error", "请求失败"⟩ := by
      rcases h with h | h | h | h | h <;>
        simp [tryBlock, Json.getProp, h, newError, Json.truthy]
    rw [apiRequest_of_error _ _ _ _ _ _ ht]
  · intro fields v hl hv
    have hn : newError env.toStr (some v)
        = match env.toStr v with
          | .ok message => .ok ⟨"Error", message⟩
          | .error typeError => .error typeError := by
      rcases hv with h | ⟨q, hq, h⟩ | ⟨items, h⟩ | ⟨fs, h⟩
      · subst h; simp [newError, Json.truthy]
      · subst h; simp [newError, Json.truthy, hq]
      · subst h; simp [newError, Json.truthy]
      · subst h; simp [newError, Json.truthy]
    constructor
    · intro message hm
      have ht : tryBlock env (.responded false (.ok (.obj fields)))
          = .error ⟨"Error", message⟩ := by
        simp [tryBlock, Json.getProp, hl, hn, hm]
      rw [apiRequest_of_error _ _ _ _ _ _ ht]
    · intro typeError hm
      have ht : tryBlock env (.responded false (.ok (.obj fields)))
          = .error typeError := by
        simp [tryBlock, Json.getProp, hl, hn, hm]
      rw [apiRequest_of_error _ _ _ _ _ _ ht]
  · intro data
    exact apiRequest_of_ok _ _ _ _ _ _ rfl

/-- C8 (amended) at concrete inputs: a 404 with body
`{error: "quiz not found"}`, a 500 with body `{error: ""}`, and a 500 with
body `{error: true}`. -/
theorem apiRequest_contract_witness :
    (List.lookup "error" [("error", Json.str "quiz not found")]
        = some (.str "quiz not found")
      ∧ (apiRequest anonymousBrowser "/quiz/7/submit" "POST" (.answers [])
          (.responded false (.ok (.obj [("error", .str "quiz not found")])))).2
        = .error ⟨"Error", "quiz not found"⟩)
    ∧ (apiRequest anonymousBrowser "/quiz/7/submit" "POST" (.answers [])
          (.responded false (.ok (.obj [("error", .str "")])))).2
        = .error ⟨"Error", "请求失败"⟩
    ∧ (anonymousBrowser.toStr (.bool true) = .ok "true"
      ∧ (apiRequest anonymousBrowser "/quiz/7/submit" "POST" (.answers [])
          (.responded false (.ok (.obj [("error", .bool true)])))).2
        = .error ⟨"Error", "true"⟩) :=
  ⟨⟨rfl, congrArg Prod.snd ((apiRequest_contract anonymousBrowser "/quiz/7/submit" "POST"
      (.answers [])).2.2.2.1 [("error", .str "quiz not found")] "quiz not found" rfl)⟩,
    congrArg Prod.snd ((apiRequest_contract anonymousBrowser "/quiz/7/submit" "POST"
      (.answers [])).2.2.2.1 [("error", .str "")] "" rfl),
    rfl, congrArg Prod.snd (((apiRequest_contract anonymousBrowser "/quiz/7/submit" "POST"
      (.answers [])).2.2.2.2.2.1 [("error", .bool true)] (.bool true) rfl
      (Or.inl rfl)).1 "true" rfl)⟩

/-- C9: `handleSubmit` never writes to the manager: whatever the outcome
(blocked by the completeness check, network failure, response outside 2xx,
or any other), the manager and so its `answers` are the ones before the
call, and a second `handleSubmit` sends what the first one would send. -/
theorem handleSubmit_preserves_answers (env : Browser) (self : QuizManager) (dom : QuizDom)
    (net : FetchOutcome) :
    (self.handleSubmit env dom net).state.answers = self.answers
    ∧ (self.handleSubmit env dom net).state = self
    ∧ ∀ net2, requests (((self.handleSubmit env dom net).state).handleSubmit env dom
          net2).effects
        = requests (self.handleSubmit env dom net2).effects := by
  have h := handleSubmit_state env self dom net
  refine ⟨by rw [h], h, ?_⟩
  intro net2
  rw [h]

/-- C10: the interval tick at time `t` sends the stored progress with
`time_spent` the whole minutes `m` since the start time (the integer with
`60000 * m ≤ t - startTime < 60000 * (m + 1)`), the unload listener sends
the stored progress with `time_spent = 0` (it does not read the clock), and
neither changes the tracker; a tick 60000 ms after construction sends
`time_spent = 1`. -/
theorem tick_and_unload_flush (env : Browser) (self : ProgressTracker) (t : Int)
    (net : FetchOutcome) :
    (60000 * ((t - self.startTime) / 60000) ≤ t - self.startTime
      ∧ t - self.startTime < 60000 * ((t - self.startTime) / 60000 + 1))
    ∧ requests (self.onInterval env t net).effects
      = [fetchArguments env ("/modules/" ++ self.moduleId ++ "/update-progress") "POST"
          (.progress self.progress ((t - self.startTime) / 60000))]
    ∧ requests (self.onBeforeUnload env net).effects
      = [fetchArguments env ("/modules/" ++ self.moduleId ++ "/update-progress") "POST"
          (.progress self.progress 0)]
    ∧ (self.onInterval env t net).state = self
    ∧ (self.onBeforeUnload env net).state = self
    ∧ (∀ moduleId t0,
        (requests ((ProgressTracker.create moduleId t0).onInterval env (t0 + 60000)
            net).effects).map (fun r => r.body) = [.progress (.fin 0) 1])
    ∧ (∀ moduleId t0,
        (requests ((ProgressTracker.create moduleId t0).onBeforeUnload env
            net).effects).map (fun r => r.body) = [.progress (.fin 0) 0]) := by
  refine ⟨⟨by omega, by omega⟩, ?_, ?_, ?_, ?_, ?_, ?_⟩
  · unfold ProgressTracker.onInterval ProgressTracker.updateTimeSpent
    simp only [saveProgress_requests, floor_minutes, Option.getD_some]
  · unfold ProgressTracker.onBeforeUnload
    simp only [saveProgress_requests, Option.getD_none]
  · exact saveProgress_state _ _ _ _
  · exact saveProgress_state _ _ _ _
  · intro moduleId t0
    unfold ProgressTracker.onInterval ProgressTracker.updateTimeSpent
    simp only [saveProgress_requests, floor_minutes, Option.getD_some]
    simp [fetchArguments, ProgressTracker.create]
  · intro moduleId t0
    unfold ProgressTracker.onBeforeUnload
    simp only [saveProgress_requests, Option.getD_none]
    simp [fetchArguments, ProgressTracker.create]

end MainJs
